import Mathlib

/-!
Verification of the episode rollout and evaluation-sweep controller in
`real2sim/main_inference.py` (SimplerEnv).

The embedding models:
* the structured policy action (`action` dict returned by `model.step`);
* the per-step info record returned by `env.step` (its `success` entry plus an
  opaque payload consumed by the statistics tracker);
* the rollout loop of `main` as a fuel-indexed loop over a `LoopState`,
  parameterised by opaque environment / policy / statistics collaborators
  (they are external to `main_inference.py`);
* `parse_range_tuple` as exact-rational `np.linspace` semantics (a negative
  sample count raises `ValueError`, modelled as `Except.error`);
* the nested sweep loops of `__main__` as a list of initial conditions;
* the video/action artifact path construction of `main`.

Machine floats are modelled as exact rationals; Python's `str()` rendering of
numbers is modelled by the deterministic `toString` on `ℚ`.
-/

namespace MainInference

/-- Structured action produced by the policy each step: the `action` dict with
keys `world_vector` (3 floats), `rot_axangle` (3 floats), `gripper` (1 float),
`terminate_episode` (1 float), as consumed by `main`. -/
structure RtAction where
  world_vector : Fin 3 → ℚ
  rot_axangle : Fin 3 → ℚ
  gripper : Fin 1 → ℚ
  terminate_episode : Fin 1 → ℚ

/-- The info record returned by `env.step`: `main` reads `info['success']`;
the rest of the dict (opaque payload `extra`) is only passed to the
environment-specific statistics updater. -/
structure Info (ε : Type) where
  success : Bool
  extra : ε

/-- Result of one `env.step` call: `(obs, reward, done, truncated, info)`,
with the new environment state and the image extracted from `obs`. -/
structure StepOut (σe Img ε : Type) where
  env : σe
  image : Img
  reward : ℚ
  done : Bool
  truncated : Bool
  info : Info ε

/-- Opaque environment collaborator: `env.agent.get_gripper_closedness()` and
`env.step(action_vector)` acting on an abstract environment state `σe`. -/
structure EnvIface (σe Img ε : Type) where
  gripper : σe → ℚ
  step : σe → List ℚ → StepOut σe Img ε

/-- Opaque policy collaborator: `model.step(image, gripper_closedness)`
returning `(raw_action, action)` and a new policy state. -/
structure PolicyIface (σp Img Raw : Type) where
  step : σp → Img → ℚ → σp × Raw × RtAction

/-- Modelled from the spec: the environment-type-specific episode statistics
functions (`initialize_additional_episode_stats`,
`update_additional_episode_stats`, `obtain_truncation_step_success`) live in
`real2sim/utils/env/additional_episode_stats.py`, which is not under `src/`;
the spec describes them as an opaque per-environment-type triple
{init, per-step update from the info record, truncation-success predicate}. -/
structure StatsIface (Stats ε : Type) where
  init : Stats
  update : Stats → Info ε → Stats
  truncSuccess : Stats → Info ε → Bool

/-- The mutable state of `main`'s rollout loop.  The `actionsTrace`,
`stepInputs`, `flagsTrace` and `infosTrace` fields are observation traces of
the loop's interactions (structured actions returned by the policy, argument
vectors passed to `env.step`, per-step derived termination flags, per-step
info records); they duplicate information already flowing through the loop
and do not alter its behaviour. -/
structure LoopState (σe σp Img Raw Stats ε : Type) where
  env : σe
  policy : σp
  image : Img
  images : List Img
  predicted_actions : List Raw
  predicted_terminated : Bool
  done : Bool
  truncated : Bool
  success : String
  stats : Stats
  timestep : ℕ
  lastInfo : Option (Info ε)
  actionsTrace : List RtAction
  stepInputs : List (List ℚ)
  flagsTrace : List Bool
  infosTrace : List (Info ε)

variable {σe σp Img Raw Stats ε : Type}

/-- `np.concatenate([action['world_vector'], action['rot_axangle'],
action['gripper']])`: the 7-component vector passed to `env.step`. -/
def actionVector (a : RtAction) : List ℚ :=
  List.ofFn a.world_vector ++ List.ofFn a.rot_axangle ++ List.ofFn a.gripper

/-- One execution of the body of `while not (predicted_terminated or truncated)`
in `main` (source lines 70-93). -/
def loopBody (E : EnvIface σe Img ε) (P : PolicyIface σp Img Raw)
    (S : StatsIface Stats ε) (s : LoopState σe σp Img Raw Stats ε) :
    LoopState σe σp Img Raw Stats ε :=
  let cur_gripper := E.gripper s.env
  let po := P.step s.policy s.image cur_gripper
  let action := po.2.2
  let predictedTerminated := decide ((0 : ℚ) < action.terminate_episode 0)
  let av := actionVector action
  let out := E.step s.env av
  { env := out.env
    policy := po.1
    image := out.image
    images := s.images ++ [out.image]
    predicted_actions := s.predicted_actions ++ [po.2.1]
    predicted_terminated := predictedTerminated
    done := out.done
    truncated := out.truncated
    success := if predictedTerminated && out.info.success then "success" else s.success
    stats := S.update s.stats out.info
    timestep := s.timestep + 1
    lastInfo := some out.info
    actionsTrace := s.actionsTrace ++ [action]
    stepInputs := s.stepInputs ++ [av]
    flagsTrace := s.flagsTrace ++ [predictedTerminated]
    infosTrace := s.infosTrace ++ [out.info] }

/-- The loop guard `not (predicted_terminated or truncated)` of `main`. -/
def loopGuard (s : LoopState σe σp Img Raw Stats ε) : Bool :=
  !(s.predicted_terminated || s.truncated)

/-- The `while` loop of `main`, indexed by fuel; `none` means the loop did not
exit within `fuel` iterations. -/
def runLoop (E : EnvIface σe Img ε) (P : PolicyIface σp Img Raw)
    (S : StatsIface Stats ε) :
    ℕ → LoopState σe σp Img Raw Stats ε → Option (LoopState σe σp Img Raw Stats ε)
  | 0, s => if loopGuard s then none else some s
  | n + 1, s => if loopGuard s then runLoop E P S n (loopBody E P S s) else some s

/-- The state of `main` just before the loop (source lines 57-67): initial
image recorded, no actions yet, all flags `False`, `success = "failure"`,
statistics initialised for the environment type. -/
def initState (S : StatsIface Stats ε) (env0 : σe) (p0 : σp) (img0 : Img) :
    LoopState σe σp Img Raw Stats ε :=
  { env := env0
    policy := p0
    image := img0
    images := [img0]
    predicted_actions := []
    predicted_terminated := false
    done := false
    truncated := false
    success := "failure"
    stats := S.init
    timestep := 0
    lastInfo := none
    actionsTrace := []
    stepInputs := []
    flagsTrace := []
    infosTrace := [] }

/-- The post-loop truncation-success override (source lines 96-97):
`if obtain_truncation_step_success(env_name, additional_episode_stats, info):
success = "success"`.  If the loop body never ran, the Python name `info` is
unbound (a fatal `NameError`), modelled as `none`. -/
def postLoop (S : StatsIface Stats ε) (s : LoopState σe σp Img Raw Stats ε) :
    Option (LoopState σe σp Img Raw Stats ε) :=
  match s.lastInfo with
  | none => none
  | some info =>
      some { s with success := if S.truncSuccess s.stats info then "success" else s.success }

/-- One full episode of `main` from reset to the final outcome (loop plus the
truncation-success override). -/
def runEpisode (E : EnvIface σe Img ε) (P : PolicyIface σp Img Raw)
    (S : StatsIface Stats ε) (fuel : ℕ) (env0 : σe) (p0 : σp) (img0 : Img) :
    Option (LoopState σe σp Img Raw Stats ε) :=
  (runLoop E P S fuel (initState S env0 p0 img0)).bind (postLoop S)

/-- The success condition of the spec: at some loop step the derived
termination flag was true and that step's info record marked success, or the
environment-type-specific truncation predicate holds on the accumulated stats
and the last info record. -/
def successCondition (S : StatsIface Stats ε)
    (s : LoopState σe σp Img Raw Stats ε) : Prop :=
  (∃ p ∈ s.flagsTrace.zip s.infosTrace, p.1 = true ∧ p.2.success = true) ∨
    (∃ i, s.lastInfo = some i ∧ S.truncSuccess s.stats i = true)

/-- `np.linspace(start, stop, num)` (with `endpoint=True`) in exact rational
arithmetic: a negative sample count raises `ValueError`; `num = 0` yields an
empty array; `num = 1` yields `[start]`; otherwise `num` points
`start + i*(stop-start)/(num-1)`. -/
def linspace (start stop : ℚ) (num : ℤ) : Except String (List ℚ) :=
  if num < 0 then Except.error "Number of samples must be non-negative"
  else if num = 1 then Except.ok [start]
  else Except.ok ((List.range num.toNat).map fun (i : ℕ) =>
    start + (i : ℚ) * (stop - start) / ((num : ℚ) - 1))

/-- `parse_range_tuple(t) = np.linspace(t[0], t[1], int(t[2]))` (source lines
128-129), taking the already-truncated integer count. -/
def parse_range_tuple (mn mx : ℚ) (n : ℤ) : Except String (List ℚ) :=
  linspace mn mx n

/-- One point of the sweep grid: the arguments `robot_init_x, robot_init_y,
robot_init_quat, obj_init_x, obj_init_y` passed to `main`; the orientation
quaternion is opaque here (type parameter `Q`). -/
structure InitialCondition (Q : Type) where
  robot_x : ℚ
  robot_y : ℚ
  robot_orientation : Q
  obj_x : ℚ
  obj_y : ℚ

/-- The ordered sequence of initial conditions visited by the nested sweep
loops of `__main__` (source lines 196-208): `robot_init_x` outermost, then
`robot_init_y`, `robot_init_quat`, `obj_init_x`, `obj_init_y` innermost. -/
def sweepSequence {Q : Type} (xs ys : List ℚ) (qs : List Q) (oxs oys : List ℚ) :
    List (InitialCondition Q) :=
  xs.flatMap fun rx => ys.flatMap fun ry => qs.flatMap fun q =>
    oxs.flatMap fun ox => oys.map fun oy =>
      { robot_x := rx, robot_y := ry, robot_orientation := q, obj_x := ox, obj_y := oy }

/-- The spec's description of the sweep: the Cartesian product
{robot_x} × {robot_y} × {robot_orientation} × {object_x} × {object_y} in that
fixed nested order, flattened into initial conditions. -/
def cartesianSweep {Q : Type} (xs ys : List ℚ) (qs : List Q) (oxs oys : List ℚ) :
    List (InitialCondition Q) :=
  ((((xs.product ys).product qs).product oxs).product oys).map fun p =>
    { robot_x := p.1.1.1.1, robot_y := p.1.1.1.2, robot_orientation := p.1.1.2,
      obj_x := p.1.2, obj_y := p.2 }

/-- `os.path.basename` for the forward-slash paths built by `main`. -/
def pathBasename (p : String) : String :=
  (p.splitOn "/").getLastD ""

/-- `os.path.dirname` for the forward-slash, relative paths built by `main`
(everything before the final separator). -/
def pathDirname (p : String) : String :=
  String.intercalate "/" ((p.splitOn "/").dropLast)

/-- The stem of `os.path.splitext`: the extension starts at the last dot,
unless every character before that dot is itself a dot (so `.bashrc` and `...`
keep their name). -/
def splitextStem (b : String) : String :=
  let cs := b.toList
  let lead := (cs.takeWhile (fun c => c = '.')).length
  let dotIdxs := (List.range cs.length).filter fun i => cs.get? i = some '.'
  match dotIdxs.getLast? with
  | none => b
  | some i => if lead ≤ i then String.mk (cs.take i) else b

/-- The inputs of the artifact path construction in `main` (source lines
100-117).  Dict values interpolated into the path are modelled as their
already-rendered strings; the kwargs and stats association lists keep Python's
dict insertion order. -/
structure PathInputs where
  ckpt_path : String
  scene_name : String
  control_mode : String
  env_name : String
  additional_env_build_kwargs : List (String × String)
  robot_init_x : ℚ
  robot_init_y : ℚ
  rgb_overlay_path : Option String
  success : String
  obj_init_x : ℚ
  obj_init_y : ℚ
  additional_episode_stats : List (String × String)
  tmp_exp : Bool

/-- The video path built by `main` (source lines 100-117): env name with
`_key_value` suffixes, checkpoint basename with a trailing slash stripped,
video name from outcome, object xy and stats suffixes, the overlay-image stem
or the literal token `None`, under `results/` or `results_tmp/`. -/
def videoPath (i : PathInputs) : String :=
  let env_save_name := i.additional_env_build_kwargs.foldl
    (fun n kv => n ++ "_" ++ kv.1 ++ "_" ++ kv.2) i.env_name
  let ckpt0 := if i.ckpt_path.endsWith "/" then i.ckpt_path.dropRight 1 else i.ckpt_path
  let ckpt_path_basename := (ckpt0.splitOn "/").getLastD ""
  let video_name0 := i.success ++ "_obj_" ++ toString i.obj_init_x ++ "_" ++ toString i.obj_init_y
  let video_name := (i.additional_episode_stats.foldl
    (fun n kv => n ++ "_" ++ kv.1 ++ "_" ++ kv.2) video_name0) ++ ".mp4"
  let rgb_overlay_path_str := match i.rgb_overlay_path with
    | none => "None"
    | some p => splitextStem (pathBasename p)
  let vp := ckpt_path_basename ++ "/" ++ i.scene_name ++ "/" ++ i.control_mode ++ "/" ++
    env_save_name ++ "/rob_" ++ toString i.robot_init_x ++ "_" ++ toString i.robot_init_y ++
    "_rgb_overlay_" ++ rgb_overlay_path_str ++ "/" ++ video_name
  if !i.tmp_exp then "results/" ++ vp else "results_tmp/" ++ vp

/-- The sibling action-visualization path (source lines 121-124): `.mp4`
replaced by `.png`, moved into an `actions/` subfolder of the video's
directory. -/
def actionPathOf (vp : String) : String :=
  let ap := vp.replace ".mp4" ".png"
  (pathDirname ap ++ "/actions/") ++ pathBasename ap

/-! Concrete collaborators used by the witnesses: trivial state/image/payload
types, a policy that never signals termination, a policy that signals
termination immediately, an environment that truncates at once, an environment
that reports success, and a trivial statistics tracker. -/

/-- Action with `terminate_episode[0] = 0` (policy does not signal done). -/
def quietAction : RtAction :=
  { world_vector := fun _ => 0, rot_axangle := fun _ => 0,
    gripper := fun _ => 0, terminate_episode := fun _ => 0 }

/-- Action with `terminate_episode[0] = 1` (policy signals done). -/
def haltAction : RtAction :=
  { world_vector := fun _ => 0, rot_axangle := fun _ => 0,
    gripper := fun _ => 0, terminate_episode := fun _ => 1 }

/-- Policy that always emits `quietAction`. -/
def policyQuiet : PolicyIface Unit Unit Unit :=
  { step := fun _ _ _ => ((), (), quietAction) }

/-- Policy that always emits `haltAction`. -/
def policyHalt : PolicyIface Unit Unit Unit :=
  { step := fun _ _ _ => ((), (), haltAction) }

/-- Environment that truncates on the first step without success. -/
def envTruncating : EnvIface Unit Unit Unit :=
  { gripper := fun _ => 0,
    step := fun _ _ =>
      { env := (), image := (), reward := 0, done := false, truncated := true,
        info := { success := false, extra := () } } }

/-- Environment that reports success on every step and never truncates. -/
def envSucceeding : EnvIface Unit Unit Unit :=
  { gripper := fun _ => 0,
    step := fun _ _ =>
      { env := (), image := (), reward := 0, done := false, truncated := false,
        info := { success := true, extra := () } } }

/-- Trivial statistics tracker (the spec's default no-op tracker). -/
def unitStats : StatsIface Unit Unit :=
  { init := (), update := fun s _ => s, truncSuccess := fun _ _ => false }

/-- The pre-loop state for the trivial collaborators. -/
def startState : LoopState Unit Unit Unit Unit Unit Unit :=
  initState unitStats () () ()

/-- The loop state after one body execution with the truncating environment
and the quiet policy. -/
def stepOnceState : LoopState Unit Unit Unit Unit Unit Unit :=
  loopBody envTruncating policyQuiet unitStats startState

/-- Episode outcome state of the truncating-environment run. -/
def episodeFinal : LoopState Unit Unit Unit Unit Unit Unit :=
  { stepOnceState with success := "failure" }

/-- The loop state after one body execution with the succeeding environment
and the immediately-terminating policy. -/
def haltState : LoopState Unit Unit Unit Unit Unit Unit :=
  loopBody envSucceeding policyHalt unitStats startState

/-- Episode outcome state of the immediate-termination run. -/
def haltFinal : LoopState Unit Unit Unit Unit Unit Unit :=
  { haltState with success := "success" }

/-- Sample path inputs for the determinism witness. -/
def samplePathInputs : PathInputs :=
  { ckpt_path := "ckpts/rt_1_x_tf_trained_for_002272480_step/"
    scene_name := "google_pick_coke_can_1_v4"
    control_mode := "arm_pd_ee_delta_pose_align_gripper_pd_joint_target_pos"
    env_name := "GraspSingleCokeCanInScene-v0"
    additional_env_build_kwargs := [("upright", "True")]
    robot_init_x := 35/100
    robot_init_y := 1/5
    rgb_overlay_path := some "data/google_table_top_1.png"
    success := "failure"
    obj_init_x := -7/20
    obj_init_y := -1/50
    additional_episode_stats := [("moved", "False")]
    tmp_exp := false }

/-- Whatever state the loop exits in falsifies the guard. -/
theorem runLoop_exit (E : EnvIface σe Img ε) (P : PolicyIface σp Img Raw)
    (S : StatsIface Stats ε) :
    ∀ (fuel : ℕ) (s s' : LoopState σe σp Img Raw Stats ε),
      runLoop E P S fuel s = some s' → loopGuard s' = false := by
  intro fuel
  induction fuel with
  | zero =>
      intro s s' hrun
      unfold runLoop at hrun
      split at hrun
      · simp at hrun
      · rename_i hg
        simp only [Option.some.injEq] at hrun
        subst hrun
        simpa using hg
  | succ n ih =>
      intro s s' hrun
      unfold runLoop at hrun
      split at hrun
      · exact ih _ _ hrun
      · rename_i hg
        simp only [Option.some.injEq] at hrun
        subst hrun
        simpa using hg

/-- Any property preserved by the loop body is carried from loop entry to
loop exit. -/
theorem runLoop_inv (E : EnvIface σe Img ε) (P : PolicyIface σp Img Raw)
    (S : StatsIface Stats ε) (Inv : LoopState σe σp Img Raw Stats ε → Prop)
    (hbody : ∀ s, Inv s → Inv (loopBody E P S s)) :
    ∀ (fuel : ℕ) (s s' : LoopState σe σp Img Raw Stats ε),
      runLoop E P S fuel s = some s' → Inv s → Inv s' := by
  intro fuel
  induction fuel with
  | zero =>
      intro s s' hrun hs
      unfold runLoop at hrun
      split at hrun
      · simp at hrun
      · simp only [Option.some.injEq] at hrun
        subst hrun
        exact hs
  | succ n ih =>
      intro s s' hrun hs
      unfold runLoop at hrun
      split at hrun
      · exact ih _ _ hrun (hbody s hs)
      · simp only [Option.some.injEq] at hrun
        subst hrun
        exact hs

/-- If the guard holds at entry, a successful run spends one fuel unit on the
first body execution. -/
theorem runLoop_start (E : EnvIface σe Img ε) (P : PolicyIface σp Img Raw)
    (S : StatsIface Stats ε) (fuel : ℕ) (s s' : LoopState σe σp Img Raw Stats ε)
    (hg : loopGuard s = true) (hrun : runLoop E P S fuel s = some s') :
    ∃ n, fuel = n + 1 ∧ runLoop E P S n (loopBody E P S s) = some s' := by
  cases fuel with
  | zero =>
      unfold runLoop at hrun
      rw [if_pos hg] at hrun
      simp at hrun
  | succ n =>
      unfold runLoop at hrun
      rw [if_pos hg] at hrun
      exact ⟨n, rfl, hrun⟩

/-- Once the guard is false the loop returns its state unchanged, whatever the
fuel. -/
theorem runLoop_stop (E : EnvIface σe Img ε) (P : PolicyIface σp Img Raw)
    (S : StatsIface Stats ε) (fuel : ℕ) (s : LoopState σe σp Img Raw Stats ε)
    (hg : loopGuard s = false) : runLoop E P S fuel s = some s := by
  cases fuel <;> unfold runLoop <;> rw [if_neg (by simp [hg])]

/-- C2: the rollout loop exits only when the policy-derived termination flag
or the environment's truncated flag is true, and the loop guard is unaffected
by the environment's done flag, for any environment, policy and statistics
collaborators. -/
theorem loop_exit_only_terminated_or_truncated (E : EnvIface σe Img ε)
    (P : PolicyIface σp Img Raw) (S : StatsIface Stats ε) (fuel : ℕ)
    (s s' : LoopState σe σp Img Raw Stats ε) :
    (runLoop E P S fuel s = some s' →
      s'.predicted_terminated = true ∨ s'.truncated = true) ∧
    (∀ b, loopGuard { s with done := b } = loopGuard s) := by
  constructor
  · intro hrun
    have hg := runLoop_exit E P S fuel s s' hrun
    simp only [loopGuard, Bool.not_eq_false', Bool.or_eq_true] at hg
    exact hg
  · intro b
    rfl

/-- Witness for C2: a run that exits via environment truncation. -/
theorem loop_exit_only_terminated_or_truncated_witness :
    stepOnceState.predicted_terminated = true ∨ stepOnceState.truncated = true :=
  (loop_exit_only_terminated_or_truncated envTruncating policyQuiet unitStats 1
    startState stepOnceState).1 rfl

/-- C6: at every loop step the derived termination flag is true exactly when
the first component of the policy action's `terminate_episode` field is
strictly positive. -/
theorem termination_flag_iff (E : EnvIface σe Img ε) (P : PolicyIface σp Img Raw)
    (S : StatsIface Stats ε) (s : LoopState σe σp Img Raw Stats ε) :
    (loopBody E P S s).predicted_terminated = true ↔
      0 < (P.step s.policy s.image (E.gripper s.env)).2.2.terminate_episode 0 := by
  simp [loopBody]

/-- C3 counterexample: at the range triple `(0, 1, 1)` the grid generator
returns the single value `0 = min`, whose last value is not `max = 1`, so the
unconditional "last value == max" part of the claim fails. -/
theorem parse_range_tuple_count_one_last_ne_max :
    parse_range_tuple 0 1 1 = Except.ok [0] ∧ List.getLast? [(0 : ℚ)] ≠ some 1 := by
  refine ⟨rfl, ?_⟩
  decide

/-- C3 (amended): for every range triple `(min, max, n)` with `n ≥ 1`,
`parse_range_tuple` returns exactly `n` evenly spaced values with first value
`min`; when `n ≥ 2` the last value is `max` (both endpoints included); when
`n = 1` it returns the single value `min`. -/
theorem parse_range_tuple_grid (mn mx : ℚ) (n : ℤ) (h : 1 ≤ n) :
    ∃ l, parse_range_tuple mn mx n = Except.ok l ∧
      l.length = n.toNat ∧
      l.head? = some mn ∧
      (2 ≤ n → l.getLast? = some mx) ∧
      (∀ i : ℕ, i + 1 < l.length → ∃ a b, l[i]? = some a ∧ l[i + 1]? = some b ∧
        b - a = (mx - mn) / ((n : ℚ) - 1)) ∧
      (n = 1 → l = [mn]) := by
  rcases eq_or_lt_of_le h with h1 | h2
  · refine ⟨[mn], ?_, ?_, ?_, ?_, ?_, ?_⟩
    · simp [parse_range_tuple, linspace, ← h1]
    · simp [← h1]
    · rfl
    · intro hc; omega
    · intro i hi; simp at hi
    · intro _; rfl
  · have hn0 : ¬ n < 0 := by omega
    have hn1 : ¬ n = 1 := by omega
    have hk2 : 2 ≤ n.toNat := by omega
    have hcast : ((n.toNat : ℤ) : ℚ) = (n : ℚ) := by
      exact_mod_cast congrArg (fun z : ℤ => (z : ℚ)) (Int.toNat_of_nonneg (by omega))
    have hkq : ((n.toNat : ℕ) : ℚ) = (n : ℚ) := by exact_mod_cast hcast
    have hne : ((n : ℚ) - 1) ≠ 0 := by
      have h2q : (2 : ℚ) ≤ (n : ℚ) := by exact_mod_cast (by omega : (2 : ℤ) ≤ n)
      intro hz
      rw [sub_eq_zero] at hz
      rw [hz] at h2q
      norm_num at h2q
    refine ⟨(List.range n.toNat).map fun (i : ℕ) =>
      mn + (i : ℚ) * (mx - mn) / ((n : ℚ) - 1), ?_, ?_, ?_, ?_, ?_, ?_⟩
    · simp [parse_range_tuple, linspace, hn0, hn1]
    · simp
    · rw [List.head?_eq_getElem?, List.getElem?_map,
        List.getElem?_range (by omega : 0 < n.toNat)]
      simp
    · intro _
      rw [List.getLast?_eq_getElem?]
      simp only [List.length_map, List.length_range]
      rw [List.getElem?_map, List.getElem?_range (by omega : n.toNat - 1 < n.toNat)]
      have hc1 : ((n.toNat - 1 : ℕ) : ℚ) = (n : ℚ) - 1 := by
        rw [Nat.cast_sub (by omega : 1 ≤ n.toNat), hkq]
        norm_num
      simp only [Option.map_some']
      congr 1
      rw [hc1]
      field_simp
    · intro i hi
      simp only [List.length_map, List.length_range] at hi
      refine ⟨mn + (i : ℚ) * (mx - mn) / ((n : ℚ) - 1),
        mn + ((i + 1 : ℕ) : ℚ) * (mx - mn) / ((n : ℚ) - 1), ?_, ?_, ?_⟩
      · rw [List.getElem?_map, List.getElem?_range (by omega : i < n.toNat)]
        rfl
      · rw [List.getElem?_map, List.getElem?_range (by omega : i + 1 < n.toNat)]
        rfl
      · push_cast
        ring
    · intro hc; omega

/-- Witness for C3 at the triple `(0, 1, 3)`. -/
theorem parse_range_tuple_grid_witness :
    ∃ l, parse_range_tuple 0 1 3 = Except.ok l ∧
      l.length = (3 : ℤ).toNat ∧
      l.head? = some 0 ∧
      ((2 : ℤ) ≤ 3 → l.getLast? = some 1) ∧
      (∀ i : ℕ, i + 1 < l.length → ∃ a b, l[i]? = some a ∧ l[i + 1]? = some b ∧
        b - a = (1 - 0) / ((3 : ℚ) - 1)) ∧
      ((3 : ℤ) = 1 → l = [0]) :=
  parse_range_tuple_grid 0 1 3 (by norm_num)

/-- C4 counterexample: at the range triple `(0, 1, 0)` (count 0, hence
count ≤ 0) the grid generator does not fail: it silently returns the empty
value list. -/
theorem parse_range_tuple_count_zero_silent :
    parse_range_tuple 0 1 0 = Except.ok [] := rfl

/-- C4 (amended): a negative count is rejected as an error (`np.linspace`
raises `ValueError`), while a zero count silently yields the empty value
list. -/
theorem parse_range_tuple_nonpositive (mn mx : ℚ) (n : ℤ) :
    (n < 0 → parse_range_tuple mn mx n =
        Except.error "Number of samples must be non-negative") ∧
    (n = 0 → parse_range_tuple mn mx n = Except.ok []) := by
  constructor
  · intro hn
    simp [parse_range_tuple, linspace, hn]
  · intro hn
    subst hn
    rfl

/-- Witness for C4 at counts `-1` and `0`. -/
theorem parse_range_tuple_nonpositive_witness :
    parse_range_tuple 0 1 (-1) = Except.error "Number of samples must be non-negative" ∧
    parse_range_tuple 0 1 0 = Except.ok [] :=
  ⟨(parse_range_tuple_nonpositive 0 1 (-1)).1 (by decide),
   (parse_range_tuple_nonpositive 0 1 0).2 rfl⟩

/-- Appending one step's flag/info pair updates the success string exactly as
the existential over the step trace does. -/
theorem succ_string_step {ε : Type} (old : String) (fl : List Bool)
    (il : List (Info ε)) (f : Bool) (i : Info ε) (hlen : fl.length = il.length)
    (hiff : old = "success" ↔ ∃ p ∈ fl.zip il, p.1 = true ∧ p.2.success = true) :
    ((if f && i.success then "success" else old) = "success" ↔
      ∃ p ∈ (fl ++ [f]).zip (il ++ [i]), p.1 = true ∧ p.2.success = true) := by
  rw [List.zip_append hlen]
  by_cases hc : (f && i.success) = true
  · rw [if_pos hc]
    rw [Bool.and_eq_true] at hc
    simp only [List.zip_cons_cons, List.zip_nil_right, List.mem_append,
      List.mem_singleton]
    constructor
    · intro _
      exact ⟨(f, i), Or.inr rfl, hc.1, hc.2⟩
    · intro _
      trivial
  · rw [if_neg hc]
    have hc' : ¬(f = true ∧ i.success = true) := by
      rw [← Bool.and_eq_true]
      exact hc
    simp only [List.zip_cons_cons, List.zip_nil_right, List.mem_append,
      List.mem_singleton]
    constructor
    · intro h
      obtain ⟨p, hp, hP⟩ := hiff.mp h
      exact ⟨p, Or.inl hp, hP⟩
    · rintro ⟨p, hp | rfl, hP⟩
      · exact hiff.mpr ⟨p, hp, hP⟩
      · exact absurd hP hc'

/-- The loop body preserves the success-string characterisation. -/
theorem succInv_body (E : EnvIface σe Img ε) (P : PolicyIface σp Img Raw)
    (S : StatsIface Stats ε) (s : LoopState σe σp Img Raw Stats ε)
    (hs : s.flagsTrace.length = s.infosTrace.length ∧
      (s.success = "success" ↔
        ∃ p ∈ s.flagsTrace.zip s.infosTrace, p.1 = true ∧ p.2.success = true)) :
    (loopBody E P S s).flagsTrace.length = (loopBody E P S s).infosTrace.length ∧
      ((loopBody E P S s).success = "success" ↔
        ∃ p ∈ (loopBody E P S s).flagsTrace.zip (loopBody E P S s).infosTrace,
          p.1 = true ∧ p.2.success = true) := by
  obtain ⟨hlen, hiff⟩ := hs
  refine ⟨by simp [loopBody, hlen], ?_⟩
  have h := succ_string_step (ε := ε) s.success s.flagsTrace s.infosTrace
    (decide ((0 : ℚ) < (P.step s.policy s.image (E.gripper s.env)).2.2.terminate_episode 0))
    (E.step s.env (actionVector (P.step s.policy s.image (E.gripper s.env)).2.2)).info
    hlen hiff
  simpa [loopBody] using h

/-- C1: for every episode the final outcome is `"success"` if and only if at
some loop step the derived termination flag was true and that step's info
record marked success, or the truncation predicate holds on the accumulated
stats and the last info record after the loop exits. -/
theorem episode_outcome_iff (E : EnvIface σe Img ε) (P : PolicyIface σp Img Raw)
    (S : StatsIface Stats ε) (fuel : ℕ) (env0 : σe) (p0 : σp) (img0 : Img)
    (final : LoopState σe σp Img Raw Stats ε)
    (hrun : runEpisode E P S fuel env0 p0 img0 = some final) :
    (final.success = "success" ↔ successCondition S final) := by
  unfold runEpisode at hrun
  cases hr : runLoop E P S fuel (initState S env0 p0 img0) with
  | none =>
      rw [hr] at hrun
      simp at hrun
  | some s1 =>
      rw [hr] at hrun
      replace hrun : postLoop S s1 = some final := hrun
      have hinv := runLoop_inv E P S (fun s =>
          s.flagsTrace.length = s.infosTrace.length ∧
          (s.success = "success" ↔
            ∃ p ∈ s.flagsTrace.zip s.infosTrace, p.1 = true ∧ p.2.success = true))
        (fun s hs => succInv_body E P S s hs) fuel _ s1 hr ⟨rfl, by simp [initState]⟩
      obtain ⟨hlen, hiff⟩ := hinv
      unfold postLoop at hrun
      cases hli : s1.lastInfo with
      | none =>
          rw [hli] at hrun
          simp at hrun
      | some info =>
          rw [hli] at hrun
          simp only [Option.some.injEq] at hrun
          subst hrun
          by_cases htr : S.truncSuccess s1.stats info = true
          · simp [successCondition, hli, htr]
          · have htr' : S.truncSuccess s1.stats info = false := by
              simpa using htr
            simpa [successCondition, hli, htr'] using hiff

/-- Witness for C1: a truncated episode with outcome `"failure"`. -/
theorem episode_outcome_iff_witness :
    (episodeFinal.success = "success" ↔ successCondition unitStats episodeFinal) :=
  episode_outcome_iff envTruncating policyQuiet unitStats 1 () () () episodeFinal rfl

/-- The loop body preserves the step-input/action correspondence. -/
theorem stepInputs_body (E : EnvIface σe Img ε) (P : PolicyIface σp Img Raw)
    (S : StatsIface Stats ε) (s : LoopState σe σp Img Raw Stats ε)
    (hs : s.stepInputs.length = s.actionsTrace.length ∧
      ∀ p ∈ s.stepInputs.zip s.actionsTrace,
        p.1 = List.ofFn p.2.world_vector ++ List.ofFn p.2.rot_axangle ++
          List.ofFn p.2.gripper ∧ p.1.length = 7) :
    (loopBody E P S s).stepInputs.length = (loopBody E P S s).actionsTrace.length ∧
      ∀ p ∈ (loopBody E P S s).stepInputs.zip (loopBody E P S s).actionsTrace,
        p.1 = List.ofFn p.2.world_vector ++ List.ofFn p.2.rot_axangle ++
          List.ofFn p.2.gripper ∧ p.1.length = 7 := by
  obtain ⟨hlen, hall⟩ := hs
  refine ⟨by simp [loopBody, hlen], ?_⟩
  intro p hp
  simp only [loopBody] at hp
  rw [List.zip_append hlen] at hp
  rcases List.mem_append.mp hp with hp | hp
  · exact hall p hp
  · simp only [List.zip_cons_cons, List.zip_nil_right, List.mem_singleton] at hp
    subst hp
    refine ⟨rfl, ?_⟩
    simp [actionVector]

/-- C7: at every loop step the vector passed to `env.step` is the
concatenation of the action's `world_vector` (3 components), rotation
axis-angle (3 components) and gripper component, in that order, a 7-vector. -/
theorem env_step_input_vector (E : EnvIface σe Img ε) (P : PolicyIface σp Img Raw)
    (S : StatsIface Stats ε) (fuel : ℕ) (env0 : σe) (p0 : σp) (img0 : Img)
    (final : LoopState σe σp Img Raw Stats ε)
    (hrun : runEpisode E P S fuel env0 p0 img0 = some final) :
    final.stepInputs.length = final.actionsTrace.length ∧
      ∀ p ∈ final.stepInputs.zip final.actionsTrace,
        p.1 = List.ofFn p.2.world_vector ++ List.ofFn p.2.rot_axangle ++
          List.ofFn p.2.gripper ∧ p.1.length = 7 := by
  unfold runEpisode at hrun
  cases hr : runLoop E P S fuel (initState S env0 p0 img0) with
  | none =>
      rw [hr] at hrun
      simp at hrun
  | some s1 =>
      rw [hr] at hrun
      replace hrun : postLoop S s1 = some final := hrun
      have hinv := runLoop_inv E P S (fun s =>
          s.stepInputs.length = s.actionsTrace.length ∧
          ∀ p ∈ s.stepInputs.zip s.actionsTrace,
            p.1 = List.ofFn p.2.world_vector ++ List.ofFn p.2.rot_axangle ++
              List.ofFn p.2.gripper ∧ p.1.length = 7)
        (fun s hs => stepInputs_body E P S s hs) fuel _ s1 hr
        ⟨rfl, by intro p hp; simp [initState] at hp⟩
      unfold postLoop at hrun
      cases hli : s1.lastInfo with
      | none =>
          rw [hli] at hrun
          simp at hrun
      | some info =>
          rw [hli] at hrun
          simp only [Option.some.injEq] at hrun
          subst hrun
          exact hinv

/-- Witness for C7 on a concrete one-step run. -/
theorem env_step_input_vector_witness :
    episodeFinal.stepInputs.length = episodeFinal.actionsTrace.length ∧
      ∀ p ∈ episodeFinal.stepInputs.zip episodeFinal.actionsTrace,
        p.1 = List.ofFn p.2.world_vector ++ List.ofFn p.2.rot_axangle ++
          List.ofFn p.2.gripper ∧ p.1.length = 7 :=
  env_step_input_vector envTruncating policyQuiet unitStats 1 () () ()
    episodeFinal rfl

/-- C8: if the policy's first action has terminate component strictly greater
than 0 and the environment's info at that step marks success, the episode
outcome is `"success"` and the frame sequence has length exactly 2. -/
theorem immediate_termination_success (E : EnvIface σe Img ε)
    (P : PolicyIface σp Img Raw) (S : StatsIface Stats ε) (fuel : ℕ)
    (env0 : σe) (p0 : σp) (img0 : Img) (final : LoopState σe σp Img Raw Stats ε)
    (h1 : 0 < (P.step p0 img0 (E.gripper env0)).2.2.terminate_episode 0)
    (h2 : (E.step env0 (actionVector (P.step p0 img0 (E.gripper env0)).2.2)).info.success = true)
    (hrun : runEpisode E P S fuel env0 p0 img0 = some final) :
    final.success = "success" ∧ final.images.length = 2 := by
  unfold runEpisode at hrun
  cases hr : runLoop E P S fuel (initState S env0 p0 img0) with
  | none =>
      rw [hr] at hrun
      simp at hrun
  | some s1 =>
      rw [hr] at hrun
      replace hrun : postLoop S s1 = some final := hrun
      obtain ⟨n, hf, hr2⟩ := runLoop_start E P S fuel (initState S env0 p0 img0) s1 rfl hr
      have hb : loopGuard (loopBody E P S (initState S env0 p0 img0)) = false := by
        simp [loopGuard, loopBody, initState, h1]
      have hstop := runLoop_stop E P S n _ hb
      have hs1 : s1 = loopBody E P S (initState S env0 p0 img0) :=
        Option.some.inj (hr2.symm.trans hstop)
      subst hs1
      have hsucc : (loopBody E P S (initState S env0 p0 img0)).success = "success" := by
        simp [loopBody, initState, h1, h2]
      unfold postLoop at hrun
      rw [show (loopBody E P S (initState S env0 p0 img0)).lastInfo =
        some (E.step env0 (actionVector (P.step p0 img0 (E.gripper env0)).2.2)).info
        from rfl] at hrun
      simp only [Option.some.injEq] at hrun
      subst hrun
      constructor
      · simp only [hsucc, ite_self]
      · simp [loopBody, initState]

/-- Witness for C8: an immediately terminating, succeeding one-step run. -/
theorem immediate_termination_success_witness :
    haltFinal.success = "success" ∧ haltFinal.images.length = 2 :=
  immediate_termination_success envSucceeding policyHalt unitStats 1 () () ()
    haltFinal (by decide) rfl rfl

/-- C10: every successful episode ran the loop body at least once: at episode
end at least one raw action is recorded, the frame sequence has length at
least 2, the last info record is defined and the step counter is positive. -/
theorem loop_body_runs_at_least_once (E : EnvIface σe Img ε)
    (P : PolicyIface σp Img Raw) (S : StatsIface Stats ε) (fuel : ℕ)
    (env0 : σe) (p0 : σp) (img0 : Img) (final : LoopState σe σp Img Raw Stats ε)
    (hrun : runEpisode E P S fuel env0 p0 img0 = some final) :
    1 ≤ final.predicted_actions.length ∧ 2 ≤ final.images.length ∧
      final.lastInfo.isSome = true ∧ 1 ≤ final.timestep := by
  unfold runEpisode at hrun
  cases hr : runLoop E P S fuel (initState S env0 p0 img0) with
  | none =>
      rw [hr] at hrun
      simp at hrun
  | some s1 =>
      rw [hr] at hrun
      replace hrun : postLoop S s1 = some final := hrun
      obtain ⟨n, hf, hr2⟩ := runLoop_start E P S fuel (initState S env0 p0 img0) s1 rfl hr
      have hinv := runLoop_inv E P S (fun s =>
          1 ≤ s.predicted_actions.length ∧ 2 ≤ s.images.length ∧
            s.lastInfo.isSome = true ∧ 1 ≤ s.timestep)
        (fun s hs => by
          obtain ⟨h1, h2, h3, h4⟩ := hs
          refine ⟨?_, ?_, ?_, ?_⟩
          · simp only [loopBody, List.length_append, List.length_cons,
              List.length_nil]
            omega
          · simp only [loopBody, List.length_append, List.length_cons,
              List.length_nil]
            omega
          · simp [loopBody]
          · simp only [loopBody]
            omega)
        n _ s1 hr2
        (by
          refine ⟨?_, ?_, ?_, ?_⟩ <;> simp [loopBody, initState])
      unfold postLoop at hrun
      cases hli : s1.lastInfo with
      | none =>
          rw [hli] at hrun
          simp at hrun
      | some info =>
          rw [hli] at hrun
          simp only [Option.some.injEq] at hrun
          subst hrun
          obtain ⟨h1, h2, h3, h4⟩ := hinv
          exact ⟨h1, h2, rfl, h4⟩

/-- Witness for C10 on a concrete one-step run. -/
theorem loop_body_runs_at_least_once_witness :
    1 ≤ episodeFinal.predicted_actions.length ∧ 2 ≤ episodeFinal.images.length ∧
      episodeFinal.lastInfo.isSome = true ∧ 1 ≤ episodeFinal.timestep :=
  loop_body_runs_at_least_once envTruncating policyQuiet unitStats 1 () () ()
    episodeFinal rfl

/-- Flattening a `flatMap` over a list product into nested `flatMap`s. -/
theorem product_flatMap {α β γ : Type} (l₁ : List α) (l₂ : List β)
    (f : α × β → List γ) :
    (l₁.product l₂).flatMap f = l₁.flatMap fun a => l₂.flatMap fun b => f (a, b) := by
  simp [List.product, List.flatMap_assoc, List.flatMap_map]

/-- Flattening a `map` over a list product into a nested `flatMap`/`map`. -/
theorem product_map {α β γ : Type} (l₁ : List α) (l₂ : List β) (f : α × β → γ) :
    (l₁.product l₂).map f = l₁.flatMap fun a => l₂.map fun b => f (a, b) := by
  simp [List.product, List.map_flatMap, List.map_map]
  rfl

/-- C5: the sweep enumerates exactly the Cartesian product of the expanded
value lists in the fixed nested order robot x, robot y, orientation, object x,
object y, and two sweeps with identical arguments visit identical ordered
sequences of initial conditions. -/
theorem sweep_enumerates_cartesian_product {Q : Type} :
    (∀ (xs ys : List ℚ) (qs : List Q) (oxs oys : List ℚ),
      sweepSequence xs ys qs oxs oys = cartesianSweep xs ys qs oxs oys) ∧
    (∀ (xs₁ xs₂ ys₁ ys₂ : List ℚ) (qs₁ qs₂ : List Q) (oxs₁ oxs₂ oys₁ oys₂ : List ℚ),
      xs₁ = xs₂ → ys₁ = ys₂ → qs₁ = qs₂ → oxs₁ = oxs₂ → oys₁ = oys₂ →
      sweepSequence xs₁ ys₁ qs₁ oxs₁ oys₁ = sweepSequence xs₂ ys₂ qs₂ oxs₂ oys₂) := by
  constructor
  · intro xs ys qs oxs oys
    unfold sweepSequence cartesianSweep
    rw [product_map, product_flatMap, product_flatMap, product_flatMap]
  · intro xs₁ xs₂ ys₁ ys₂ qs₁ qs₂ oxs₁ oxs₂ oys₁ oys₂ h1 h2 h3 h4 h5
    rw [h1, h2, h3, h4, h5]

/-- Witness for C5 on small concrete grids. -/
theorem sweep_enumerates_cartesian_product_witness :
    sweepSequence [1] [2] ([0] : List ℚ) [3] [4, 5] =
      cartesianSweep [1] [2] ([0] : List ℚ) [3] [4, 5] ∧
    sweepSequence [1] [2] ([0] : List ℚ) [3] [4, 5] =
      sweepSequence [1] [2] ([0] : List ℚ) [3] [4, 5] :=
  ⟨(sweep_enumerates_cartesian_product (Q := ℚ)).1 [1] [2] [0] [3] [4, 5],
   (sweep_enumerates_cartesian_product (Q := ℚ)).2 [1] [1] [2] [2] [0] [0]
     [3] [3] [4, 5] [4, 5] rfl rfl rfl rfl rfl⟩

/-- C9: artifact path construction is a pure function of its inputs: two
episodes agreeing on checkpoint path, scene, control mode, environment name,
build kwargs, robot xy, overlay path, outcome, object xy, stats and the
tmp flag produce the identical video path and hence the identical sibling
action path. -/
theorem artifact_path_deterministic (i j : PathInputs)
    (h1 : i.ckpt_path = j.ckpt_path) (h2 : i.scene_name = j.scene_name)
    (h3 : i.control_mode = j.control_mode) (h4 : i.env_name = j.env_name)
    (h5 : i.additional_env_build_kwargs = j.additional_env_build_kwargs)
    (h6 : i.robot_init_x = j.robot_init_x) (h7 : i.robot_init_y = j.robot_init_y)
    (h8 : i.rgb_overlay_path = j.rgb_overlay_path) (h9 : i.success = j.success)
    (h10 : i.obj_init_x = j.obj_init_x) (h11 : i.obj_init_y = j.obj_init_y)
    (h12 : i.additional_episode_stats = j.additional_episode_stats)
    (h13 : i.tmp_exp = j.tmp_exp) :
    videoPath i = videoPath j ∧
      actionPathOf (videoPath i) = actionPathOf (videoPath j) := by
  have hij : i = j := by
    cases i
    cases j
    rw [PathInputs.mk.injEq]
    exact ⟨h1, h2, h3, h4, h5, h6, h7, h8, h9, h10, h11, h12, h13⟩
  subst hij
  exact ⟨rfl, rfl⟩

/-- Witness for C9 at concrete path inputs. -/
theorem artifact_path_deterministic_witness :
    videoPath samplePathInputs = videoPath samplePathInputs ∧
      actionPathOf (videoPath samplePathInputs) =
        actionPathOf (videoPath samplePathInputs) :=
  artifact_path_deterministic samplePathInputs samplePathInputs
    rfl rfl rfl rfl rfl rfl rfl rfl rfl rfl rfl rfl rfl

end MainInference
